import Mathlib

/-!
Shallow embedding of the GPU durable memory allocator FUSE daemon
(gpu_mem_fuse.c / gpu_mem_fuse.h) and proofs about its claims.

The daemon keeps two hash tables keyed by path: `allocations`
(materialized GPU allocations) and `pending_allocs` (size/durability
hints set before creation).  Handlers are translated one-to-one from the
C source; hash tables become association lists, `time(NULL)` becomes an
explicit `t : Nat` parameter, and the outcomes of the fallible CUDA
calls `cuMemCreate` / `cuMemExportToShareableHandle` become explicit
Boolean parameters (`cudaOk`, `exportOk`) with the fresh exported file
descriptor given by `fd : Nat`.
-/

namespace GpuMemFuse

/-- errno: no such file or directory. -/
def ENOENT : Int := 2
/-- errno: I/O error (EIO). -/
def EIO_code : Int := 5
/-- errno: out of memory. -/
def ENOMEM : Int := 12
/-- errno: permission denied. -/
def EACCES : Int := 13
/-- errno: file exists. -/
def EEXIST : Int := 17
/-- errno: invalid argument. -/
def EINVAL : Int := 22
/-- errno: result too large. -/
def ERANGE : Int := 34
/-- errno: no data available. -/
def ENODATA : Int := 61

/-- XATTR_GPU_SIZE from gpu_mem_fuse.h. -/
def XATTR_GPU_SIZE : String := "user.gpu.size"
/-- XATTR_GPU_DURABLE from gpu_mem_fuse.h. -/
def XATTR_GPU_DURABLE : String := "user.gpu.durable"
/-- METADATA_DIR from gpu_mem_fuse.h. -/
def METADATA_DIR : String := ".metadata"

/-- Allocation states (gpu_alloc_state_t in gpu_mem_fuse.h). -/
inductive gpu_alloc_state_t
  | PENDING
  | ACTIVE
  | DURABLE
  | TRANSIENT
deriving DecidableEq, Repr

/-- One GPU allocation record (gpu_allocation_t).  The CUDA handle is
modelled by its validity (`cuMemCreate` succeeded); `export_fd = -1`
means no exported shareable handle, as in the C source. -/
structure gpu_allocation_t where
  size : Nat
  handle_valid : Bool
  export_fd : Int
  state : gpu_alloc_state_t
  refcount : Int
  created_time : Nat
  last_access : Nat
deriving DecidableEq, Repr

/-- A pending allocation hint (pending_allocation_t). -/
structure pending_allocation_t where
  size : Nat
  is_durable : Bool
  created : Nat
deriving DecidableEq, Repr

/-- The daemon context (gpu_fuse_context_t): the two path-keyed tables.
The handle_map table and CUDA device fields are not observable by any
handler modelled here and are omitted. -/
structure gpu_fuse_context_t where
  allocations : List (String × gpu_allocation_t)
  pending_allocs : List (String × pending_allocation_t)
deriving DecidableEq, Repr

/-- Association-list lookup, modelling g_hash_table_lookup. -/
def tblLookup {α : Type} : List (String × α) → String → Option α
  | [], _ => none
  | (k, v) :: rest, p => if k = p then some v else tblLookup rest p

/-- Association-list removal, modelling g_hash_table_remove. -/
def tblRemove {α : Type} : List (String × α) → String → List (String × α)
  | [], _ => []
  | (k, v) :: rest, p => if k = p then tblRemove rest p else (k, v) :: tblRemove rest p

/-- Association-list insertion, modelling g_hash_table_insert (replaces
an existing entry with the same key). -/
def tblInsert {α : Type} (t : List (String × α)) (k : String) (v : α) : List (String × α) :=
  (k, v) :: tblRemove t k

/-- strstr-style substring test on character lists. -/
def strstr_contains : List Char → List Char → Bool
  | [], needle => needle.isEmpty
  | c :: rest, needle => needle.isPrefixOf (c :: rest) || strstr_contains rest needle

/-- is_metadata_path: strstr(path, METADATA_DIR) != NULL. -/
def is_metadata_path (path : String) : Bool :=
  strstr_contains path.toList METADATA_DIR.toList

/-- ULLONG_MAX for 64-bit unsigned long long. -/
def ULLONG_MAX : Nat := 2 ^ 64 - 1

/-- Accumulate the longest leading run of decimal digits. -/
def strtoull10_digits : List Char → Nat → Nat
  | [], acc => acc
  | c :: cs, acc => if c.isDigit then strtoull10_digits cs (acc * 10 + (c.toNat - 48)) else acc

/-- C whitespace, as classified by isspace. -/
def isSpaceChar (c : Char) : Bool :=
  c == ' ' || c == '\t' || c == '\n' || c == '\x0b' || c == '\x0c' || c == '\r'

/-- strtoull(value, NULL, 10): skip whitespace, optional sign, longest
decimal-digit prefix; clamp to ULLONG_MAX; a minus sign negates in the
unsigned (mod 2^64) sense; no digits gives 0. -/
def strtoull10 (s : String) : Nat :=
  let cs := s.toList.dropWhile isSpaceChar
  let signed : Bool × List Char :=
    match cs with
    | '-' :: rest => (true, rest)
    | '+' :: rest => (false, rest)
    | _ => (false, cs)
  let m := strtoull10_digits signed.2 0
  let v := if m > ULLONG_MAX then ULLONG_MAX else m
  if signed.1 then (2 ^ 64 - v % 2 ^ 64) % 2 ^ 64 else v

/-- The empty daemon context built in main(). -/
def init_ctx : gpu_fuse_context_t := ⟨[], []⟩

/-- gpu_fuse_create_allocation: allocate `size` bytes at `path`; refuse
size 0 (-EINVAL) and an existing entry (-EEXIST); `cudaOk` is the
outcome of cuMemCreate (-ENOMEM on failure); when durable, `exportOk`
is the outcome of cuMemExportToShareableHandle (on failure the record
silently falls back to transient with no exported fd). -/
def gpu_fuse_create_allocation (ctx : gpu_fuse_context_t) (path : String) (size : Nat)
    (is_durable : Bool) (cudaOk exportOk : Bool) (fd : Nat) (t : Nat) :
    Int × gpu_fuse_context_t :=
  if size = 0 then (-EINVAL, ctx)
  else if (tblLookup ctx.allocations path).isSome then (-EEXIST, ctx)
  else if cudaOk = false then (-ENOMEM, ctx)
  else
    let efd : Int := if is_durable && exportOk then (fd : Int) else -1
    let st : gpu_alloc_state_t := if is_durable && exportOk then .DURABLE else .TRANSIENT
    let alloc : gpu_allocation_t :=
      { size := size, handle_valid := true, export_fd := efd, state := st,
        refcount := 1, created_time := t, last_access := t }
    (0, { ctx with allocations := tblInsert ctx.allocations path alloc })

/-- gpu_fuse_get_allocation: lookup by path, updating last_access. -/
def gpu_fuse_get_allocation (ctx : gpu_fuse_context_t) (path : String) (t : Nat) :
    Option gpu_allocation_t × gpu_fuse_context_t :=
  match tblLookup ctx.allocations path with
  | none => (none, ctx)
  | some a =>
    let a2 := { a with last_access := t }
    (some a2, { ctx with allocations := tblInsert ctx.allocations path a2 })

/-- gpu_fuse_make_durable: export a shareable handle if not yet
exported (failure: -EIO, no change), then mark durable and bump the
refcount.  Already-durable records are left unchanged. -/
def gpu_fuse_make_durable (ctx : gpu_fuse_context_t) (path : String)
    (a : gpu_allocation_t) (exportOk : Bool) (fd : Nat) :
    Int × gpu_fuse_context_t :=
  if a.state = .DURABLE then (0, ctx)
  else if a.export_fd = -1 ∧ exportOk = false then (-EIO_code, ctx)
  else
    let efd : Int := if a.export_fd = -1 then (fd : Int) else a.export_fd
    let a2 := { a with export_fd := efd, state := .DURABLE, refcount := a.refcount + 1 }
    (0, { ctx with allocations := tblInsert ctx.allocations path a2 })

/-- gpu_fuse_cleanup_allocation: decrement the refcount; a durable
record with remaining references survives (with the decremented count
written back); otherwise release the CUDA handle, close the fd and
remove the entry. -/
def gpu_fuse_cleanup_allocation (ctx : gpu_fuse_context_t) (path : String)
    (a : gpu_allocation_t) : Int × gpu_fuse_context_t :=
  let a2 := { a with refcount := a.refcount - 1 }
  if a2.refcount > 0 ∧ a2.state = .DURABLE then
    (0, { ctx with allocations := tblInsert ctx.allocations path a2 })
  else
    (0, { ctx with allocations := tblRemove ctx.allocations path })

/-- Attribute-query stat result. -/
structure fuse_stat where
  is_dir : Bool
  mode : Nat
  nlink : Nat
  st_size : Nat
  st_atime : Nat
  st_mtime : Nat
  st_ctime : Nat
deriving DecidableEq, Repr

/-- getattr outcome: a stat buffer or a negative errno. -/
inductive getattr_result
  | stat : fuse_stat → getattr_result
  | fail : Int → getattr_result
deriving DecidableEq, Repr

/-- gpu_fuse_getattr: "/" and metadata paths are directories (0755,
nlink 2); an allocation is a regular 0644 file with its size and
timestamps; a pending record is a regular 0644 file of size 0 with its
creation time; anything else is -ENOENT. -/
def gpu_fuse_getattr (ctx : gpu_fuse_context_t) (path : String) (t : Nat) :
    getattr_result × gpu_fuse_context_t :=
  if path = "/" then (.stat ⟨true, 0o755, 2, 0, 0, 0, 0⟩, ctx)
  else if is_metadata_path path then (.stat ⟨true, 0o755, 2, 0, 0, 0, 0⟩, ctx)
  else
    match gpu_fuse_get_allocation ctx path t with
    | (some a, c2) =>
      (.stat ⟨false, 0o644, 1, a.size, a.last_access, a.created_time, a.created_time⟩, c2)
    | (none, c2) =>
      match tblLookup c2.pending_allocs path with
      | some p => (.stat ⟨false, 0o644, 1, 0, p.created, p.created, p.created⟩, c2)
      | none => (.fail (-ENOENT), c2)

/-- gpu_fuse_open: bump the refcount of an existing allocation. -/
def gpu_fuse_open (ctx : gpu_fuse_context_t) (path : String) (t : Nat) :
    Int × gpu_fuse_context_t :=
  match gpu_fuse_get_allocation ctx path t with
  | (none, c2) => (-ENOENT, c2)
  | (some a, c2) =>
    let a2 := { a with refcount := a.refcount + 1 }
    (0, { c2 with allocations := tblInsert c2.allocations path a2 })

/-- gpu_fuse_create: a pending record with a positive size hint is
consumed and materialized via gpu_fuse_create_allocation; otherwise a
fresh empty pending record is inserted (replacing any size-0 one). -/
def gpu_fuse_create (ctx : gpu_fuse_context_t) (path : String)
    (cudaOk exportOk : Bool) (fd t : Nat) : Int × gpu_fuse_context_t :=
  match tblLookup ctx.pending_allocs path with
  | some pending =>
    if pending.size > 0 then
      let c2 := { ctx with pending_allocs := tblRemove ctx.pending_allocs path }
      gpu_fuse_create_allocation c2 path pending.size pending.is_durable cudaOk exportOk fd t
    else
      (0, { ctx with pending_allocs := tblInsert ctx.pending_allocs path ⟨0, false, t⟩ })
  | none =>
    (0, { ctx with pending_allocs := tblInsert ctx.pending_allocs path ⟨0, false, t⟩ })

/-- gpu_fuse_write: acknowledge the full requested size without
transferring data; -ENOENT when no allocation exists at the path. -/
def gpu_fuse_write (ctx : gpu_fuse_context_t) (path : String) (size : Nat) (t : Nat) :
    Int × gpu_fuse_context_t :=
  match gpu_fuse_get_allocation ctx path t with
  | (none, c2) => (-ENOENT, c2)
  | (some _, c2) => ((size : Int), c2)

/-- gpu_fuse_release: drop a reference; a transient record whose count
reaches zero is cleaned up. -/
def gpu_fuse_release (ctx : gpu_fuse_context_t) (path : String) (t : Nat) :
    Int × gpu_fuse_context_t :=
  match gpu_fuse_get_allocation ctx path t with
  | (none, c2) => (-ENOENT, c2)
  | (some a, c2) =>
    let a2 := { a with refcount := a.refcount - 1 }
    if a2.refcount ≤ 0 ∧ a2.state = .TRANSIENT then
      let c3 := { c2 with allocations := tblInsert c2.allocations path a2 }
      gpu_fuse_cleanup_allocation c3 path a2
    else
      (0, { c2 with allocations := tblInsert c2.allocations path a2 })

/-- gpu_fuse_setxattr: user.gpu.size records a strtoull-parsed pending
size (0 is -EINVAL); user.gpu.durable toggles durability of an existing
allocation (via gpu_fuse_make_durable) or of a pending record; other
names answer -ENODATA. -/
def gpu_fuse_setxattr (ctx : gpu_fuse_context_t) (path name value : String)
    (exportOk : Bool) (fd t : Nat) : Int × gpu_fuse_context_t :=
  if name = XATTR_GPU_SIZE then
    let alloc_size := strtoull10 value
    if alloc_size = 0 then (-EINVAL, ctx)
    else
      match tblLookup ctx.pending_allocs path with
      | none =>
        (0, { ctx with pending_allocs :=
                tblInsert ctx.pending_allocs path ⟨alloc_size, false, t⟩ })
      | some p =>
        (0, { ctx with pending_allocs :=
                tblInsert ctx.pending_allocs path { p with size := alloc_size } })
  else if name = XATTR_GPU_DURABLE then
    let is_durable : Bool := value == "1" || value == "true"
    match gpu_fuse_get_allocation ctx path t with
    | (some a, c2) =>
      if is_durable then gpu_fuse_make_durable c2 path a exportOk fd
      else
        let a2 := { a with state := .TRANSIENT }
        (0, { c2 with allocations := tblInsert c2.allocations path a2 })
    | (none, c2) =>
      match tblLookup c2.pending_allocs path with
      | some p =>
        (0, { c2 with pending_allocs :=
                tblInsert c2.pending_allocs path { p with is_durable := is_durable } })
      | none => (0, c2)
  else (-ENODATA, ctx)

/-- gpu_fuse_getxattr: user.gpu.size answers the decimal size of an
allocation (or of a positive-size pending record); user.gpu.durable
answers "true"/"false" for an allocation; a zero buffer size returns
the needed length, a too-small buffer -ERANGE; everything else is
-ENODATA.  The returned pair carries (result, copied value). -/
def gpu_fuse_getxattr (ctx : gpu_fuse_context_t) (path name : String)
    (size : Nat) (t : Nat) : (Int × Option String) × gpu_fuse_context_t :=
  if name = XATTR_GPU_SIZE then
    match gpu_fuse_get_allocation ctx path t with
    | (some a, c2) =>
      let s := Nat.repr a.size
      let len := s.length
      if size = 0 then (((len : Int), none), c2)
      else if size < len then ((-ERANGE, none), c2)
      else (((len : Int), some s), c2)
    | (none, c2) =>
      match tblLookup c2.pending_allocs path with
      | some p =>
        if p.size > 0 then
          let s := Nat.repr p.size
          let len := s.length
          if size = 0 then (((len : Int), none), c2)
          else if size < len then ((-ERANGE, none), c2)
          else (((len : Int), some s), c2)
        else ((-ENODATA, none), c2)
      | none => ((-ENODATA, none), c2)
  else if name = XATTR_GPU_DURABLE then
    match gpu_fuse_get_allocation ctx path t with
    | (some a, c2) =>
      let s := if a.state = .DURABLE then "true" else "false"
      let len := s.length
      if size = 0 then (((len : Int), none), c2)
      else if size < len then ((-ERANGE, none), c2)
      else (((len : Int), some s), c2)
    | (none, c2) => ((-ENODATA, none), c2)
  else ((-ENODATA, none), ctx)

/-- The two attribute names gpu_fuse_listxattr reports, in order. -/
def listxattr_names : List String := [XATTR_GPU_SIZE, XATTR_GPU_DURABLE]

/-- gpu_fuse_listxattr: -ENOENT when the path has neither an allocation
nor a pending record; otherwise both attribute names, with the usual
zero-size / -ERANGE buffer protocol. -/
def gpu_fuse_listxattr (ctx : gpu_fuse_context_t) (path : String)
    (size : Nat) (t : Nat) : (Int × Option (List String)) × gpu_fuse_context_t :=
  match gpu_fuse_get_allocation ctx path t with
  | (found, c2) =>
    if found.isNone ∧ (tblLookup c2.pending_allocs path).isNone then
      ((-ENOENT, none), c2)
    else
      let attrs_len := XATTR_GPU_SIZE.length + 1 + XATTR_GPU_DURABLE.length + 1
      if size = 0 then (((attrs_len : Int), none), c2)
      else if size < attrs_len then ((-ERANGE, none), c2)
      else (((attrs_len : Int), some listxattr_names), c2)

/-- gpu_fuse_unlink: clean up an existing allocation, else remove a
pending record, else -ENOENT. -/
def gpu_fuse_unlink (ctx : gpu_fuse_context_t) (path : String) (t : Nat) :
    Int × gpu_fuse_context_t :=
  match gpu_fuse_get_allocation ctx path t with
  | (some a, c2) => gpu_fuse_cleanup_allocation c2 path a
  | (none, c2) =>
    if (tblLookup c2.pending_allocs path).isSome then
      (0, { c2 with pending_allocs := tblRemove c2.pending_allocs path })
    else (-ENOENT, c2)

/-- gpu_fuse_mkdir: only metadata directories are allowed. -/
def gpu_fuse_mkdir (path : String) : Int :=
  if is_metadata_path path then 0 else -EACCES

/-- Strip one leading slash, as readdir does before listing names. -/
def stripSlash (s : String) : String :=
  match s.toList with
  | '/' :: rest => String.mk rest
  | _ => s

/-- gpu_fuse_readdir: only "/" is listable; yields ".", "..", the
metadata directory, then every allocation and pending path. -/
def gpu_fuse_readdir (ctx : gpu_fuse_context_t) (path : String) :
    Int × List String :=
  if path = "/" then
    (0, "." :: ".." :: METADATA_DIR ::
        (ctx.allocations.map (fun e => stripSlash e.1) ++
         ctx.pending_allocs.map (fun e => stripSlash e.1)))
  else (-ENOENT, [])

/-- The handlers registered in the fuse_operations table gpu_fuse_ops,
in the order of the C initializer. -/
def gpu_fuse_ops : List String :=
  ["getattr", "readdir", "open", "create", "read", "write", "release",
   "setxattr", "getxattr", "listxattr", "unlink", "mkdir", "init", "destroy"]

/-- Modelled from the spec: the list of filesystem operations the spec
says the daemon surfaces ("getattr, readdir, create, open, truncate,
read, utimens, getxattr, listxattr, unlink, init, destroy"), written
for comparison with the registered table `gpu_fuse_ops`. -/
def spec_surfaced_ops : List String :=
  ["getattr", "readdir", "create", "open", "truncate", "read", "utimens",
   "getxattr", "listxattr", "unlink", "init", "destroy"]

/-- The states reachable from the empty context by the daemon's
state-mutating handlers, each invoked with arbitrary arguments,
timestamps and CUDA outcomes. -/
inductive Reach : gpu_fuse_context_t → Prop
  | init : Reach init_ctx
  | step_create (ctx path cudaOk exportOk fd t) :
      Reach ctx → Reach (gpu_fuse_create ctx path cudaOk exportOk fd t).2
  | step_open (ctx path t) :
      Reach ctx → Reach (gpu_fuse_open ctx path t).2
  | step_write (ctx path size t) :
      Reach ctx → Reach (gpu_fuse_write ctx path size t).2
  | step_release (ctx path t) :
      Reach ctx → Reach (gpu_fuse_release ctx path t).2
  | step_unlink (ctx path t) :
      Reach ctx → Reach (gpu_fuse_unlink ctx path t).2
  | step_setxattr (ctx path name value exportOk fd t) :
      Reach ctx → Reach (gpu_fuse_setxattr ctx path name value exportOk fd t).2
  | step_getxattr (ctx path name size t) :
      Reach ctx → Reach (gpu_fuse_getxattr ctx path name size t).2
  | step_listxattr (ctx path size t) :
      Reach ctx → Reach (gpu_fuse_listxattr ctx path size t).2
  | step_getattr (ctx path t) :
      Reach ctx → Reach (gpu_fuse_getattr ctx path t).2

/-- Concrete trace context: a 4096-byte size hint on "/a". -/
def ctx_a1 : gpu_fuse_context_t :=
  (gpu_fuse_setxattr init_ctx "/a" XATTR_GPU_SIZE "4096" true 3 0).2

/-- Concrete trace context: the hint consumed by create, leaving a
materialized transient allocation at "/a". -/
def ctx_a2 : gpu_fuse_context_t := (gpu_fuse_create ctx_a1 "/a" true true 3 1).2

/-- Concrete trace context: "/a" made durable (refcount 2). -/
def ctx_a3 : gpu_fuse_context_t :=
  (gpu_fuse_setxattr ctx_a2 "/a" XATTR_GPU_DURABLE "1" true 5 2).2

/-- Concrete trace context: a bare create on "/b" (pending, size 0). -/
def ctx_p0 : gpu_fuse_context_t := (gpu_fuse_create init_ctx "/b" true true 3 0).2

/-- Concrete trace context: a fresh 2048-byte size hint on "/a" while
the 4096-byte allocation still exists. -/
def ctx_b : gpu_fuse_context_t :=
  (gpu_fuse_setxattr ctx_a2 "/a" XATTR_GPU_SIZE "2048" true 3 6).2

/-- The allocation record living at "/a" in ctx_a2. -/
def rec_a2 : gpu_allocation_t :=
  { size := 4096, handle_valid := true, export_fd := -1, state := .TRANSIENT,
    refcount := 1, created_time := 1, last_access := 1 }

/-- Every allocation stored in a table has a positive size and a valid
CUDA handle. -/
def table_ok (t : List (String × gpu_allocation_t)) : Prop :=
  ∀ p a, tblLookup t p = some a → 0 < a.size ∧ a.handle_valid = true

theorem tblLookup_remove {α : Type} (t : List (String × α)) (k p : String) :
    tblLookup (tblRemove t k) p = if p = k then none else tblLookup t p := by
  induction t with
  | nil => simp [tblRemove, tblLookup]
  | cons hd tl ih =>
    obtain ⟨k0, v0⟩ := hd
    simp only [tblRemove]
    rcases eq_or_ne k0 k with h1 | h1
    · subst h1
      rw [if_pos rfl, ih]
      rcases eq_or_ne p k0 with h2 | h2
      · rw [if_pos h2, if_pos h2]
      · rw [if_neg h2, if_neg h2, tblLookup, if_neg (Ne.symm h2)]
    · rw [if_neg h1]
      simp only [tblLookup]
      rcases eq_or_ne k0 p with h2 | h2
      · subst h2
        rw [if_pos rfl, if_neg h1, if_pos rfl]
      · rw [if_neg h2, ih]
        rcases eq_or_ne p k with h3 | h3
        · rw [if_pos h3, if_pos h3]
        · rw [if_neg h3, if_neg h3, if_neg h2]

theorem tblLookup_insert {α : Type} (t : List (String × α)) (k : String) (v : α)
    (p : String) :
    tblLookup (tblInsert t k v) p = if p = k then some v else tblLookup t p := by
  simp only [tblInsert, tblLookup]
  rcases eq_or_ne p k with h | h
  · subst h
    rw [if_pos rfl, if_pos rfl]
  · rw [if_neg (Ne.symm h), if_neg h, tblLookup_remove, if_neg h]

theorem table_ok_insert {t : List (String × gpu_allocation_t)} {k : String}
    {v : gpu_allocation_t} (h : table_ok t) (hs : 0 < v.size)
    (hb : v.handle_valid = true) : table_ok (tblInsert t k v) := by
  intro p a hpa
  rw [tblLookup_insert] at hpa
  split at hpa
  · cases hpa
    exact ⟨hs, hb⟩
  · exact h p a hpa

theorem table_ok_remove {t : List (String × gpu_allocation_t)} {k : String}
    (h : table_ok t) : table_ok (tblRemove t k) := by
  intro p a hpa
  rw [tblLookup_remove] at hpa
  split at hpa
  · cases hpa
  · exact h p a hpa

theorem get_allocation_none {ctx : gpu_fuse_context_t} {path : String} {t : Nat}
    (hl : tblLookup ctx.allocations path = none) :
    gpu_fuse_get_allocation ctx path t = (none, ctx) := by
  simp only [gpu_fuse_get_allocation, hl]

theorem get_allocation_some {ctx : gpu_fuse_context_t} {path : String} {t : Nat}
    {a : gpu_allocation_t} (hl : tblLookup ctx.allocations path = some a) :
    gpu_fuse_get_allocation ctx path t =
      (some { a with last_access := t },
       { ctx with allocations := tblInsert ctx.allocations path { a with last_access := t } }) := by
  simp only [gpu_fuse_get_allocation, hl]

theorem create_allocation_table_ok {ctx : gpu_fuse_context_t} {path : String}
    {size : Nat} {is_durable cudaOk exportOk : Bool} {fd t : Nat}
    (h : table_ok ctx.allocations) :
    table_ok (gpu_fuse_create_allocation ctx path size is_durable cudaOk exportOk fd t).2.allocations := by
  unfold gpu_fuse_create_allocation
  split
  · exact h
  · split
    · exact h
    · split
      · exact h
      · rename_i hsz _ _
        exact table_ok_insert h (Nat.pos_of_ne_zero hsz) rfl

theorem make_durable_table_ok {ctx : gpu_fuse_context_t} {path : String}
    {a : gpu_allocation_t} {exportOk : Bool} {fd : Nat}
    (h : table_ok ctx.allocations) (hs : 0 < a.size) (hb : a.handle_valid = true) :
    table_ok (gpu_fuse_make_durable ctx path a exportOk fd).2.allocations := by
  unfold gpu_fuse_make_durable
  split
  · exact h
  · split
    · exact h
    · exact table_ok_insert h hs hb

theorem cleanup_table_ok {ctx : gpu_fuse_context_t} {path : String}
    {a : gpu_allocation_t} (h : table_ok ctx.allocations) (hs : 0 < a.size)
    (hb : a.handle_valid = true) :
    table_ok (gpu_fuse_cleanup_allocation ctx path a).2.allocations := by
  simp only [gpu_fuse_cleanup_allocation]
  split
  · exact table_ok_insert h hs hb
  · exact table_ok_remove h

theorem create_table_ok {ctx : gpu_fuse_context_t} {path : String}
    {cudaOk exportOk : Bool} {fd t : Nat} (h : table_ok ctx.allocations) :
    table_ok (gpu_fuse_create ctx path cudaOk exportOk fd t).2.allocations := by
  cases hl : tblLookup ctx.pending_allocs path with
  | none => simp only [gpu_fuse_create, hl]; exact h
  | some pending =>
    by_cases hsz : pending.size > 0
    · simp only [gpu_fuse_create, hl, if_pos hsz]
      exact create_allocation_table_ok h
    · simp only [gpu_fuse_create, hl, if_neg hsz]
      exact h

theorem open_table_ok {ctx : gpu_fuse_context_t} {path : String} {t : Nat}
    (h : table_ok ctx.allocations) :
    table_ok (gpu_fuse_open ctx path t).2.allocations := by
  simp only [gpu_fuse_open]
  cases hl : tblLookup ctx.allocations path with
  | none => simp only [gpu_fuse_get_allocation, hl]; exact h
  | some a =>
    have ha := h path a hl
    simp only [gpu_fuse_get_allocation, hl]
    exact table_ok_insert (table_ok_insert h ha.1 ha.2) ha.1 ha.2

theorem write_table_ok {ctx : gpu_fuse_context_t} {path : String} {size t : Nat}
    (h : table_ok ctx.allocations) :
    table_ok (gpu_fuse_write ctx path size t).2.allocations := by
  simp only [gpu_fuse_write]
  cases hl : tblLookup ctx.allocations path with
  | none => simp only [gpu_fuse_get_allocation, hl]; exact h
  | some a =>
    have ha := h path a hl
    simp only [gpu_fuse_get_allocation, hl]
    exact table_ok_insert h ha.1 ha.2

theorem release_table_ok {ctx : gpu_fuse_context_t} {path : String} {t : Nat}
    (h : table_ok ctx.allocations) :
    table_ok (gpu_fuse_release ctx path t).2.allocations := by
  simp only [gpu_fuse_release]
  cases hl : tblLookup ctx.allocations path with
  | none => simp only [gpu_fuse_get_allocation, hl]; exact h
  | some a =>
    have ha := h path a hl
    simp only [gpu_fuse_get_allocation, hl]
    split
    · exact cleanup_table_ok (table_ok_insert (table_ok_insert h ha.1 ha.2) ha.1 ha.2) ha.1 ha.2
    · exact table_ok_insert (table_ok_insert h ha.1 ha.2) ha.1 ha.2

theorem unlink_table_ok {ctx : gpu_fuse_context_t} {path : String} {t : Nat}
    (h : table_ok ctx.allocations) :
    table_ok (gpu_fuse_unlink ctx path t).2.allocations := by
  simp only [gpu_fuse_unlink]
  cases hl : tblLookup ctx.allocations path with
  | none =>
    simp only [gpu_fuse_get_allocation, hl]
    split
    · exact h
    · exact h
  | some a =>
    have ha := h path a hl
    simp only [gpu_fuse_get_allocation, hl]
    exact cleanup_table_ok (table_ok_insert h ha.1 ha.2) ha.1 ha.2

theorem setxattr_table_ok {ctx : gpu_fuse_context_t} {path name value : String}
    {exportOk : Bool} {fd t : Nat} (h : table_ok ctx.allocations) :
    table_ok (gpu_fuse_setxattr ctx path name value exportOk fd t).2.allocations := by
  simp only [gpu_fuse_setxattr]
  split
  · split
    · exact h
    · cases hp : tblLookup ctx.pending_allocs path <;> exact h
  · split
    · cases hl : tblLookup ctx.allocations path with
      | none =>
        simp only [gpu_fuse_get_allocation, hl]
        cases hp : tblLookup ctx.pending_allocs path <;> exact h
      | some a =>
        have ha := h path a hl
        simp only [gpu_fuse_get_allocation, hl]
        split
        · exact make_durable_table_ok (table_ok_insert h ha.1 ha.2) ha.1 ha.2
        · exact table_ok_insert (table_ok_insert h ha.1 ha.2) ha.1 ha.2
    · exact h

theorem getxattr_table_ok {ctx : gpu_fuse_context_t} {path name : String}
    {size t : Nat} (h : table_ok ctx.allocations) :
    table_ok (gpu_fuse_getxattr ctx path name size t).2.allocations := by
  simp only [gpu_fuse_getxattr]
  split
  · cases hl : tblLookup ctx.allocations path with
    | none =>
      simp only [gpu_fuse_get_allocation, hl]
      cases hp : tblLookup ctx.pending_allocs path with
      | none => exact h
      | some p =>
        dsimp only
        split_ifs <;> exact h
    | some a =>
      have ha := h path a hl
      simp only [gpu_fuse_get_allocation, hl]
      split_ifs <;> exact table_ok_insert h ha.1 ha.2
  · split
    · cases hl : tblLookup ctx.allocations path with
      | none =>
        simp only [gpu_fuse_get_allocation, hl]
        exact h
      | some a =>
        have ha := h path a hl
        simp only [gpu_fuse_get_allocation, hl]
        split_ifs <;> exact table_ok_insert h ha.1 ha.2
    · exact h

theorem listxattr_table_ok {ctx : gpu_fuse_context_t} {path : String}
    {size t : Nat} (h : table_ok ctx.allocations) :
    table_ok (gpu_fuse_listxattr ctx path size t).2.allocations := by
  simp only [gpu_fuse_listxattr]
  cases hl : tblLookup ctx.allocations path with
  | none =>
    simp only [gpu_fuse_get_allocation, hl]
    split_ifs <;> exact h
  | some a =>
    have ha := h path a hl
    simp only [gpu_fuse_get_allocation, hl]
    split_ifs <;> exact table_ok_insert h ha.1 ha.2

theorem getattr_table_ok {ctx : gpu_fuse_context_t} {path : String} {t : Nat}
    (h : table_ok ctx.allocations) :
    table_ok (gpu_fuse_getattr ctx path t).2.allocations := by
  simp only [gpu_fuse_getattr]
  split
  · exact h
  · split
    · exact h
    · cases hl : tblLookup ctx.allocations path with
      | none =>
        simp only [gpu_fuse_get_allocation, hl]
        cases hp : tblLookup ctx.pending_allocs path <;> exact h
      | some a =>
        have ha := h path a hl
        simp only [gpu_fuse_get_allocation, hl]
        exact table_ok_insert h ha.1 ha.2

theorem reach_table_ok {ctx : gpu_fuse_context_t} (h : Reach ctx) :
    table_ok ctx.allocations := by
  induction h with
  | init => intro p a hpa; cases hpa
  | step_create _ _ _ _ _ _ _ ih => exact create_table_ok ih
  | step_open _ _ _ _ ih => exact open_table_ok ih
  | step_write _ _ _ _ _ ih => exact write_table_ok ih
  | step_release _ _ _ _ ih => exact release_table_ok ih
  | step_unlink _ _ _ _ ih => exact unlink_table_ok ih
  | step_setxattr _ _ _ _ _ _ _ _ ih => exact setxattr_table_ok ih
  | step_getxattr _ _ _ _ _ _ ih => exact getxattr_table_ok ih
  | step_listxattr _ _ _ _ _ ih => exact listxattr_table_ok ih
  | step_getattr _ _ _ _ ih => exact getattr_table_ok ih

theorem reach_ctx_a1 : Reach ctx_a1 :=
  Reach.step_setxattr init_ctx "/a" XATTR_GPU_SIZE "4096" true 3 0 Reach.init

theorem reach_ctx_a2 : Reach ctx_a2 :=
  Reach.step_create ctx_a1 "/a" true true 3 1 reach_ctx_a1

theorem reach_ctx_a3 : Reach ctx_a3 :=
  Reach.step_setxattr ctx_a2 "/a" XATTR_GPU_DURABLE "1" true 5 2 reach_ctx_a2

theorem reach_ctx_p0 : Reach ctx_p0 :=
  Reach.step_create init_ctx "/b" true true 3 0 Reach.init

theorem reach_ctx_b : Reach ctx_b :=
  Reach.step_setxattr ctx_a2 "/a" XATTR_GPU_SIZE "2048" true 3 6 reach_ctx_a2

/-- Claim C1 (counterexample): in the reachable state ctx_a2 the record
at "/a" has a valid GPU handle and positive size but no valid shareable
handle (export_fd = -1), refuting "gpu_handle valid ⇔ shareable_handle
valid ⇔ size > 0". -/
theorem c1_counterexample :
    Reach ctx_a2 ∧
    tblLookup ctx_a2.allocations "/a" = some rec_a2 ∧
    (rec_a2.handle_valid = true ∧ 0 < rec_a2.size ∧ rec_a2.export_fd = -1) ∧
    ¬(rec_a2.handle_valid = true ↔ rec_a2.export_fd ≠ -1) :=
  ⟨reach_ctx_a2, by decide, by decide, by decide⟩

/-- Claim C1 (amended): for every record present in the registry at any
reachable state, the GPU allocation handle is valid iff the record's
size is greater than zero (both always hold), and a valid shareable
handle implies a valid GPU handle; the converse implication fails for
transient records, which are materialized without an export. -/
theorem c1_handle_size_invariant {ctx : gpu_fuse_context_t} (h : Reach ctx)
    (p : String) (a : gpu_allocation_t)
    (ha : tblLookup ctx.allocations p = some a) :
    (a.handle_valid = true ↔ 0 < a.size) ∧
    (a.export_fd ≠ -1 → a.handle_valid = true) := by
  have hok := reach_table_ok h p a ha
  exact ⟨⟨fun _ => hok.1, fun _ => hok.2⟩, fun _ => hok.2⟩

/-- Witness for C1's amended theorem at the reachable state ctx_a2. -/
theorem c1_handle_size_invariant_witness :
    (rec_a2.handle_valid = true ↔ 0 < rec_a2.size) ∧
    (rec_a2.export_fd ≠ -1 → rec_a2.handle_valid = true) :=
  c1_handle_size_invariant reach_ctx_a2 "/a" rec_a2 (by decide)

/-- Claim C2 (counterexample): the registered fuse_operations table
contains write (absent from the spec's list) and does not contain
truncate (present in the spec's list), so the surfaced set is not the
claimed set. -/
theorem c2_counterexample :
    ("write" ∈ gpu_fuse_ops ∧ "write" ∉ spec_surfaced_ops) ∧
    ("truncate" ∈ spec_surfaced_ops ∧ "truncate" ∉ gpu_fuse_ops) := by
  decide

/-- Claim C2 (amended): the daemon registers exactly getattr, readdir,
open, create, read, write, release, setxattr, getxattr, listxattr,
unlink, mkdir, init, destroy; relative to the spec's list, truncate and
utimens are missing and write, release, setxattr, mkdir are extra. -/
theorem c2_surfaced_ops :
    gpu_fuse_ops.filter (fun op => !spec_surfaced_ops.contains op) =
      ["write", "release", "setxattr", "mkdir"] ∧
    spec_surfaced_ops.filter (fun op => !gpu_fuse_ops.contains op) =
      ["truncate", "utimens"] ∧
    gpu_fuse_ops.filter (fun op => spec_surfaced_ops.contains op) =
      ["getattr", "readdir", "open", "create", "read", "getxattr",
       "listxattr", "unlink", "init", "destroy"] := by
  decide

theorem getattr_absent {ctx : gpu_fuse_context_t} {path : String} (t : Nat)
    (hroot : path ≠ "/") (hmeta : is_metadata_path path = false)
    (hl : tblLookup ctx.allocations path = none)
    (hp : tblLookup ctx.pending_allocs path = none) :
    (gpu_fuse_getattr ctx path t).1 = .fail (-ENOENT) := by
  simp only [gpu_fuse_getattr, gpu_fuse_get_allocation, hl, hp, if_neg hroot, hmeta,
    Bool.false_eq_true, if_false]

theorem getxattr_size_absent {ctx : gpu_fuse_context_t} {path : String} (sz t : Nat)
    (hl : tblLookup ctx.allocations path = none)
    (hp : tblLookup ctx.pending_allocs path = none) :
    (gpu_fuse_getxattr ctx path XATTR_GPU_SIZE sz t).1 = (-ENODATA, none) := by
  simp only [gpu_fuse_getxattr, gpu_fuse_get_allocation, hl, hp, eq_self_iff_true, if_true]

/-- Claim C3 (counterexample): in the reachable state ctx_a3 the record
at "/a" is durable with refcount 2; unlink returns success yet the
record survives in the registry, and a subsequent getattr still reports
the file, refuting "after a successful unlink, getattr returns
not_found". -/
theorem c3_counterexample :
    Reach ctx_a3 ∧
    (gpu_fuse_unlink ctx_a3 "/a" 3).1 = 0 ∧
    tblLookup (gpu_fuse_unlink ctx_a3 "/a" 3).2.allocations "/a" =
      some { size := 4096, handle_valid := true, export_fd := 5, state := .DURABLE,
             refcount := 1, created_time := 1, last_access := 3 } ∧
    (gpu_fuse_getattr (gpu_fuse_unlink ctx_a3 "/a" 3).2 "/a" 4).1 =
      .stat ⟨false, 0o644, 1, 4096, 4, 1, 1⟩ :=
  ⟨reach_ctx_a3, by decide, by decide, by decide⟩

/-- Claim C3 (amended): unlink on a path with an allocation returns
success; if the record is not durable-with-remaining-references, and no
pending record or metadata name shadows the path, the entry is removed
(its GPU memory released) and a subsequent getattr answers not_found
while getxattr answers no_data; a durable record with remaining
references instead survives with its refcount decremented. -/
theorem c3_unlink_removes {ctx : gpu_fuse_context_t} {path : String}
    {a : gpu_allocation_t} (t t2 sz : Nat)
    (hl : tblLookup ctx.allocations path = some a) :
    (¬(a.refcount - 1 > 0 ∧ a.state = .DURABLE) →
      tblLookup ctx.pending_allocs path = none →
      path ≠ "/" →
      is_metadata_path path = false →
      (gpu_fuse_unlink ctx path t).1 = 0 ∧
      tblLookup (gpu_fuse_unlink ctx path t).2.allocations path = none ∧
      (gpu_fuse_getattr (gpu_fuse_unlink ctx path t).2 path t2).1 = .fail (-ENOENT) ∧
      ((gpu_fuse_getxattr (gpu_fuse_unlink ctx path t).2 path XATTR_GPU_SIZE sz t2).1) =
        (-ENODATA, none)) ∧
    ((a.refcount - 1 > 0 ∧ a.state = .DURABLE) →
      (gpu_fuse_unlink ctx path t).1 = 0 ∧
      tblLookup (gpu_fuse_unlink ctx path t).2.allocations path =
        some { a with refcount := a.refcount - 1, last_access := t }) := by
  have hu : gpu_fuse_unlink ctx path t =
      gpu_fuse_cleanup_allocation
        { ctx with allocations := tblInsert ctx.allocations path { a with last_access := t } }
        path { a with last_access := t } := by
    simp only [gpu_fuse_unlink, gpu_fuse_get_allocation, hl]
  constructor
  · intro hc hp hroot hmeta
    rw [hu]
    simp only [gpu_fuse_cleanup_allocation]
    rw [if_neg hc]
    have hrm : tblLookup
        (tblRemove (tblInsert ctx.allocations path { a with last_access := t }) path)
        path = none := by
      rw [tblLookup_remove, if_pos rfl]
    exact ⟨rfl, hrm, getattr_absent t2 hroot hmeta hrm hp,
      getxattr_size_absent sz t2 hrm hp⟩
  · intro hc
    rw [hu]
    simp only [gpu_fuse_cleanup_allocation]
    rw [if_pos hc]
    refine ⟨rfl, ?_⟩
    rw [tblLookup_insert, if_pos rfl]

/-- Witness for C3's amended theorem: unlinking the transient record of
ctx_a2 removes it and getattr/getxattr report its absence. -/
theorem c3_unlink_removes_witness :
    (gpu_fuse_unlink ctx_a2 "/a" 7).1 = 0 ∧
    tblLookup (gpu_fuse_unlink ctx_a2 "/a" 7).2.allocations "/a" = none ∧
    (gpu_fuse_getattr (gpu_fuse_unlink ctx_a2 "/a" 7).2 "/a" 8).1 = .fail (-ENOENT) ∧
    ((gpu_fuse_getxattr (gpu_fuse_unlink ctx_a2 "/a" 7).2 "/a" XATTR_GPU_SIZE 5 8).1) =
      (-ENODATA, none) :=
  (c3_unlink_removes 7 8 5
      (show tblLookup ctx_a2.allocations "/a" = some rec_a2 by decide)).1
    (by decide) (by decide) (by decide) (by decide)

theorem create_no_hint (ctx : gpu_fuse_context_t) (path : String)
    (cudaOk exportOk : Bool) (fd t : Nat)
    (h : tblLookup ctx.pending_allocs path = none ∨
         ∃ p, tblLookup ctx.pending_allocs path = some p ∧ ¬p.size > 0) :
    gpu_fuse_create ctx path cudaOk exportOk fd t =
      (0, { ctx with pending_allocs :=
              tblInsert ctx.pending_allocs path ⟨0, false, t⟩ }) := by
  rcases h with h | ⟨p, hp, hsz⟩
  · simp only [gpu_fuse_create, h]
  · simp only [gpu_fuse_create, hp, if_neg hsz]

theorem create_allocation_success (ctx : gpu_fuse_context_t) (path : String)
    (size : Nat) (is_durable cudaOk exportOk : Bool) (fd t : Nat)
    (h : (gpu_fuse_create_allocation ctx path size is_durable cudaOk exportOk fd t).1 = 0) :
    size ≠ 0 ∧ tblLookup ctx.allocations path = none ∧ cudaOk = true ∧
    (gpu_fuse_create_allocation ctx path size is_durable cudaOk exportOk fd t).2 =
      { ctx with allocations := (tblInsert ctx.allocations path
          ({ size := size, handle_valid := true,
             export_fd := if is_durable && exportOk then (fd : Int) else -1,
             state := if is_durable && exportOk then .DURABLE else .TRANSIENT,
             refcount := 1, created_time := t, last_access := t })) } := by
  by_cases h0 : size = 0
  · exfalso
    unfold gpu_fuse_create_allocation at h
    rw [if_pos h0] at h
    exact absurd h (by norm_num [EINVAL])
  · by_cases h1 : (tblLookup ctx.allocations path).isSome = true
    · exfalso
      unfold gpu_fuse_create_allocation at h
      rw [if_neg h0, if_pos h1] at h
      exact absurd h (by norm_num [EEXIST])
    · by_cases h2 : cudaOk = false
      · exfalso
        unfold gpu_fuse_create_allocation at h
        rw [if_neg h0, if_neg h1, if_pos h2] at h
        exact absurd h (by norm_num [ENOMEM])
      · have hnone : tblLookup ctx.allocations path = none := by
          cases hx : tblLookup ctx.allocations path with
          | none => rfl
          | some _ => exact absurd (by rw [hx]; rfl) h1
        have hcu : cudaOk = true := by
          cases cudaOk
          · exact absurd rfl h2
          · rfl
        refine ⟨h0, hnone, hcu, ?_⟩
        unfold gpu_fuse_create_allocation
        rw [if_neg h0, if_neg h1, if_neg h2]

/-- Claim C4 (counterexample): after a size hint, create("/a")
materializes the allocation and leaves no pending record; an
immediately repeated create("/a") succeeds but inserts a fresh pending
record for "/a" into the registry — a side effect beyond timestamp
updates. -/
theorem c4_counterexample :
    Reach ctx_a1 ∧
    (gpu_fuse_create ctx_a1 "/a" true true 3 1).1 = 0 ∧
    tblLookup ctx_a2.pending_allocs "/a" = none ∧
    (gpu_fuse_create ctx_a2 "/a" true true 3 5).1 = 0 ∧
    tblLookup (gpu_fuse_create ctx_a2 "/a" true true 3 5).2.pending_allocs "/a" =
      some ⟨0, false, 5⟩ :=
  ⟨reach_ctx_a1, by decide, by decide, by decide, by decide⟩

/-- Claim C4 (amended): a second create(p) immediately following a
successful create(p) succeeds, leaves the allocations table untouched,
and its only effect on the pending table is to (re)insert a fresh
empty pending record for p with the new timestamp, other paths
unchanged; when the first create materialized an allocation this
pending record is a new entry, not merely a timestamp update. -/
theorem c4_create_idempotent (ctx : gpu_fuse_context_t) (path : String)
    (cu1 cu2 ex1 ex2 : Bool) (f1 f2 t1 t2 : Nat)
    (h1 : (gpu_fuse_create ctx path cu1 ex1 f1 t1).1 = 0) :
    (gpu_fuse_create (gpu_fuse_create ctx path cu1 ex1 f1 t1).2 path cu2 ex2 f2 t2).1 = 0 ∧
    (gpu_fuse_create (gpu_fuse_create ctx path cu1 ex1 f1 t1).2 path cu2 ex2 f2 t2).2.allocations =
      (gpu_fuse_create ctx path cu1 ex1 f1 t1).2.allocations ∧
    tblLookup
      (gpu_fuse_create (gpu_fuse_create ctx path cu1 ex1 f1 t1).2 path cu2 ex2 f2 t2).2.pending_allocs
      path = some ⟨0, false, t2⟩ ∧
    ∀ q, q ≠ path →
      tblLookup
        (gpu_fuse_create (gpu_fuse_create ctx path cu1 ex1 f1 t1).2 path cu2 ex2 f2 t2).2.pending_allocs
        q =
      tblLookup (gpu_fuse_create ctx path cu1 ex1 f1 t1).2.pending_allocs q := by
  cases hp : tblLookup ctx.pending_allocs path with
  | none =>
    have e1 := create_no_hint ctx path cu1 ex1 f1 t1 (Or.inl hp)
    rw [e1]
    have hp2 : tblLookup
        (tblInsert ctx.pending_allocs path ⟨0, false, t1⟩) path =
        some ⟨0, false, t1⟩ := by
      rw [tblLookup_insert, if_pos rfl]
    have e2 := create_no_hint
      { ctx with pending_allocs := tblInsert ctx.pending_allocs path ⟨0, false, t1⟩ }
      path cu2 ex2 f2 t2 (Or.inr ⟨⟨0, false, t1⟩, hp2, by simp⟩)
    rw [e2]
    refine ⟨rfl, rfl, by rw [tblLookup_insert, if_pos rfl], ?_⟩
    intro q hq
    rw [tblLookup_insert, if_neg hq]
  | some pending =>
    by_cases hsz : pending.size > 0
    · have e1 : gpu_fuse_create ctx path cu1 ex1 f1 t1 =
          gpu_fuse_create_allocation
            { ctx with pending_allocs := tblRemove ctx.pending_allocs path }
            path pending.size pending.is_durable cu1 ex1 f1 t1 := by
        simp only [gpu_fuse_create, hp, if_pos hsz]
      rw [e1] at h1 ⊢
      obtain ⟨hs0, hnl, hcu, hctx⟩ :=
        create_allocation_success _ _ _ _ _ _ _ _ h1
      rw [hctx]
      have hp2 : tblLookup (tblRemove ctx.pending_allocs path) path = none := by
        rw [tblLookup_remove, if_pos rfl]
      have e2 := create_no_hint
        { allocations := (tblInsert ctx.allocations path
            ({ size := pending.size, handle_valid := true,
               export_fd := if pending.is_durable && ex1 then (f1 : Int) else -1,
               state := if pending.is_durable && ex1 then .DURABLE else .TRANSIENT,
               refcount := 1, created_time := t1, last_access := t1 })),
          pending_allocs := tblRemove ctx.pending_allocs path }
        path cu2 ex2 f2 t2 (Or.inl hp2)
      rw [e2]
      refine ⟨rfl, rfl, by rw [tblLookup_insert, if_pos rfl], ?_⟩
      intro q hq
      rw [tblLookup_insert, if_neg hq]
    · have e1 := create_no_hint ctx path cu1 ex1 f1 t1 (Or.inr ⟨pending, hp, hsz⟩)
      rw [e1]
      have hp2 : tblLookup
          (tblInsert ctx.pending_allocs path ⟨0, false, t1⟩) path =
          some ⟨0, false, t1⟩ := by
        rw [tblLookup_insert, if_pos rfl]
      have e2 := create_no_hint
        { ctx with pending_allocs := tblInsert ctx.pending_allocs path ⟨0, false, t1⟩ }
        path cu2 ex2 f2 t2 (Or.inr ⟨⟨0, false, t1⟩, hp2, by simp⟩)
      rw [e2]
      refine ⟨rfl, rfl, by rw [tblLookup_insert, if_pos rfl], ?_⟩
      intro q hq
      rw [tblLookup_insert, if_neg hq]

/-- Witness for C4's amended theorem on a bare double create at "/w". -/
theorem c4_create_idempotent_witness :
    (gpu_fuse_create (gpu_fuse_create init_ctx "/w" true true 3 1).2 "/w" true true 3 2).1 = 0 ∧
    (gpu_fuse_create (gpu_fuse_create init_ctx "/w" true true 3 1).2 "/w" true true 3 2).2.allocations =
      (gpu_fuse_create init_ctx "/w" true true 3 1).2.allocations ∧
    tblLookup
      (gpu_fuse_create (gpu_fuse_create init_ctx "/w" true true 3 1).2 "/w" true true 3 2).2.pending_allocs
      "/w" = some ⟨0, false, 2⟩ :=
  ⟨(c4_create_idempotent init_ctx "/w" true true true true 3 3 1 2 (by decide)).1,
   (c4_create_idempotent init_ctx "/w" true true true true 3 3 1 2 (by decide)).2.1,
   (c4_create_idempotent init_ctx "/w" true true true true 3 3 1 2 (by decide)).2.2.1⟩

/-- Claim C5 (counterexample): in the reachable state ctx_b the path
"/a" carries both a materialized 4096-byte allocation and a pending
2048-byte hint; create("/a") consumes the pending record but fails
with -EEXIST, and no allocation of the hinted size or durability is
materialized — the old record is unchanged. -/
theorem c5_counterexample :
    Reach ctx_b ∧
    tblLookup ctx_b.pending_allocs "/a" = some ⟨2048, false, 6⟩ ∧
    (gpu_fuse_create ctx_b "/a" true true 3 7).1 = -EEXIST ∧
    (gpu_fuse_create ctx_b "/a" true true 3 7).1 ≠ 0 ∧
    tblLookup (gpu_fuse_create ctx_b "/a" true true 3 7).2.pending_allocs "/a" = none ∧
    tblLookup (gpu_fuse_create ctx_b "/a" true true 3 7).2.allocations "/a" = some rec_a2 ∧
    rec_a2.size ≠ 2048 :=
  ⟨reach_ctx_b, by decide, by decide, by decide, by decide, by decide, by decide⟩

/-- Claim C5 (amended): on create(path), a pending record with a
non-zero size hint is always removed and materialization is attempted:
when no allocation already exists at the path and the GPU allocation
succeeds, an allocation of exactly the hinted size is created, durable
exactly when the hint asked for durability and the export succeeded;
without such a hint a fresh unmaterialized pending record (size 0) is
inserted and create succeeds. -/
theorem c5_create_materializes (ctx : gpu_fuse_context_t) (path : String)
    (pend : pending_allocation_t) (cudaOk exportOk : Bool) (fd t : Nat) :
    (tblLookup ctx.pending_allocs path = some pend → 0 < pend.size →
      tblLookup ctx.allocations path = none → cudaOk = true →
      (gpu_fuse_create ctx path cudaOk exportOk fd t).1 = 0 ∧
      tblLookup (gpu_fuse_create ctx path cudaOk exportOk fd t).2.pending_allocs path = none ∧
      tblLookup (gpu_fuse_create ctx path cudaOk exportOk fd t).2.allocations path =
        some { size := pend.size, handle_valid := true,
               export_fd := if pend.is_durable && exportOk then (fd : Int) else -1,
               state := if pend.is_durable && exportOk then .DURABLE else .TRANSIENT,
               refcount := 1, created_time := t, last_access := t }) ∧
    ((tblLookup ctx.pending_allocs path = none ∨
        (∃ p, tblLookup ctx.pending_allocs path = some p ∧ p.size = 0)) →
      (gpu_fuse_create ctx path cudaOk exportOk fd t).1 = 0 ∧
      tblLookup (gpu_fuse_create ctx path cudaOk exportOk fd t).2.pending_allocs path =
        some ⟨0, false, t⟩) := by
  constructor
  · intro hp hsz hna hcu
    have e1 : gpu_fuse_create ctx path cudaOk exportOk fd t =
        gpu_fuse_create_allocation
          { ctx with pending_allocs := tblRemove ctx.pending_allocs path }
          path pend.size pend.is_durable cudaOk exportOk fd t := by
      simp only [gpu_fuse_create, hp, if_pos hsz]
    rw [e1]
    subst hcu
    unfold gpu_fuse_create_allocation
    rw [if_neg (Nat.pos_iff_ne_zero.mp hsz), if_neg (by rw [hna]; decide),
      if_neg (by decide)]
    refine ⟨rfl, by rw [tblLookup_remove, if_pos rfl], ?_⟩
    rw [tblLookup_insert, if_pos rfl]
  · intro h
    have e1 := create_no_hint ctx path cudaOk exportOk fd t (by
      rcases h with h | ⟨p, hp, hz⟩
      · exact Or.inl h
      · exact Or.inr ⟨p, hp, by omega⟩)
    rw [e1]
    exact ⟨rfl, by rw [tblLookup_insert, if_pos rfl]⟩

/-- Witness for C5's amended theorem: materialization of the 4096-byte
hint of ctx_a1, and pending insertion on a bare create at "/w". -/
theorem c5_create_materializes_witness :
    ((gpu_fuse_create ctx_a1 "/a" true true 3 1).1 = 0 ∧
     tblLookup (gpu_fuse_create ctx_a1 "/a" true true 3 1).2.pending_allocs "/a" = none ∧
     tblLookup (gpu_fuse_create ctx_a1 "/a" true true 3 1).2.allocations "/a" =
       some rec_a2) ∧
    ((gpu_fuse_create init_ctx "/w" true true 3 4).1 = 0 ∧
     tblLookup (gpu_fuse_create init_ctx "/w" true true 3 4).2.pending_allocs "/w" =
       some ⟨0, false, 4⟩) :=
  ⟨(c5_create_materializes ctx_a1 "/a" ⟨4096, false, 0⟩ true true 3 1).1
      (by decide) (by decide) (by decide) rfl,
   (c5_create_materializes init_ctx "/w" ⟨0, false, 0⟩ true true 3 4).2
      (Or.inl rfl)⟩


/-- Claim C6 (counterexample): the path "/b" is present in the registry
(as a pending record) in the reachable state ctx_p0; listxattr lists
both attribute names, yet getxattr answers -ENODATA for both
user.gpu.durable and user.gpu.size, refuting "listxattr names exactly
and only the attributes getxattr answers with something other than
no_data". -/
theorem c6_counterexample :
    Reach ctx_p0 ∧
    tblLookup ctx_p0.pending_allocs "/b" = some ⟨0, false, 0⟩ ∧
    (gpu_fuse_listxattr ctx_p0 "/b" 99 1).1 = ((31 : Int), some listxattr_names) ∧
    XATTR_GPU_DURABLE ∈ listxattr_names ∧
    (gpu_fuse_getxattr ctx_p0 "/b" XATTR_GPU_DURABLE 0 1).1 = (-ENODATA, none) ∧
    (gpu_fuse_getxattr ctx_p0 "/b" XATTR_GPU_SIZE 0 1).1 = (-ENODATA, none) :=
  ⟨reach_ctx_p0, by decide, by decide, by decide, by decide, by decide⟩

/-- Claim C6 (amended): for every path carrying a materialized
allocation, listxattr (with a large enough buffer, 31 bytes) names
exactly and only the attributes that getxattr answers with something
other than no_data; for pending-only paths listxattr over-reports. -/
theorem c6_listxattr_matches (ctx : gpu_fuse_context_t) (path name : String)
    (a : gpu_allocation_t) (sz t : Nat)
    (hl : tblLookup ctx.allocations path = some a) (hsz : 31 ≤ sz) :
    (gpu_fuse_listxattr ctx path sz t).1 = ((31 : Int), some listxattr_names) ∧
    (name ∈ listxattr_names ↔ ((gpu_fuse_getxattr ctx path name 0 t).1).1 ≠ -ENODATA) := by
  have h31 : XATTR_GPU_SIZE.length + 1 + XATTR_GPU_DURABLE.length + 1 = 31 := by decide
  constructor
  · simp only [gpu_fuse_listxattr, gpu_fuse_get_allocation, hl]
    rw [if_neg (by simp), if_neg (by omega)]
    rw [h31]
    rw [if_neg (by omega)]
    rfl
  · by_cases hn1 : name = XATTR_GPU_SIZE
    · subst hn1
      refine ⟨fun _ => ?_, fun _ => by decide⟩
      have hv : ((gpu_fuse_getxattr ctx path XATTR_GPU_SIZE 0 t).1).1 =
          ((Nat.repr a.size).length : Int) := by
        simp only [gpu_fuse_getxattr, eq_self_iff_true, if_true,
          gpu_fuse_get_allocation, hl, if_pos rfl]
      rw [hv]
      intro hcontra
      simp only [ENODATA] at hcontra
      omega
    · by_cases hn2 : name = XATTR_GPU_DURABLE
      · subst hn2
        refine ⟨fun _ => ?_, fun _ => by decide⟩
        have hv : ((gpu_fuse_getxattr ctx path XATTR_GPU_DURABLE 0 t).1).1 =
            ((if a.state = .DURABLE then "true" else "false").length : Int) := by
          simp only [gpu_fuse_getxattr,
            if_neg (show XATTR_GPU_DURABLE ≠ XATTR_GPU_SIZE by decide),
            eq_self_iff_true, if_true, gpu_fuse_get_allocation, hl, if_pos rfl]
        rw [hv]
        by_cases hst : a.state = .DURABLE
        · rw [if_pos hst]
          decide
        · rw [if_neg hst]
          decide
      · have hres : ((gpu_fuse_getxattr ctx path name 0 t).1).1 = -ENODATA := by
          simp only [gpu_fuse_getxattr, if_neg hn1, if_neg hn2]
        rw [hres]
        constructor
        · intro hmem
          simp only [listxattr_names, List.mem_cons, List.mem_singleton,
            List.not_mem_nil] at hmem
          rcases hmem with hmem | hmem | hmem
          · exact absurd hmem hn1
          · exact absurd hmem hn2
          · exact hmem.elim
        · intro hne
          exact absurd rfl hne

/-- Witness for C6's amended theorem at the materialized state ctx_a2. -/
theorem c6_listxattr_matches_witness :
    (gpu_fuse_listxattr ctx_a2 "/a" 31 9).1 = ((31 : Int), some listxattr_names) ∧
    (XATTR_GPU_SIZE ∈ listxattr_names ↔
      ((gpu_fuse_getxattr ctx_a2 "/a" XATTR_GPU_SIZE 0 9).1).1 ≠ -ENODATA) :=
  c6_listxattr_matches ctx_a2 "/a" XATTR_GPU_SIZE rec_a2 31 9 (by decide) (by decide)

/-- Claim C7 (counterexample): "/.metadata" is absent from both tables
of the empty (reachable) context, yet getattr reports a directory
instead of failing with not_found. -/
theorem c7_counterexample :
    Reach init_ctx ∧
    tblLookup init_ctx.allocations "/.metadata" = none ∧
    tblLookup init_ctx.pending_allocs "/.metadata" = none ∧
    (gpu_fuse_getattr init_ctx "/.metadata" 0).1 =
      .stat ⟨true, 0o755, 2, 0, 0, 0, 0⟩ :=
  ⟨Reach.init, rfl, rfl, by decide⟩

/-- Claim C7 (amended): getattr("/") reports a directory with mode 0755
and link count 2; so does getattr on any path containing the metadata
directory name; getattr on a path with a materialized allocation
reports a regular 0644 file with the record's size (access time is the
refreshed last_access, modify/change times the creation time); a
pending record reports a regular 0644 file of size 0 with its creation
time; getattr on any other path fails with not_found. -/
theorem c7_getattr_shape (ctx : gpu_fuse_context_t) (path : String)
    (a : gpu_allocation_t) (p : pending_allocation_t) (t : Nat) :
    ((gpu_fuse_getattr ctx "/" t).1 = .stat ⟨true, 0o755, 2, 0, 0, 0, 0⟩) ∧
    (is_metadata_path path = true →
      (gpu_fuse_getattr ctx path t).1 = .stat ⟨true, 0o755, 2, 0, 0, 0, 0⟩) ∧
    (path ≠ "/" → is_metadata_path path = false →
      tblLookup ctx.allocations path = some a →
      (gpu_fuse_getattr ctx path t).1 =
        .stat ⟨false, 0o644, 1, a.size, t, a.created_time, a.created_time⟩) ∧
    (path ≠ "/" → is_metadata_path path = false →
      tblLookup ctx.allocations path = none →
      tblLookup ctx.pending_allocs path = some p →
      (gpu_fuse_getattr ctx path t).1 =
        .stat ⟨false, 0o644, 1, 0, p.created, p.created, p.created⟩) ∧
    (path ≠ "/" → is_metadata_path path = false →
      tblLookup ctx.allocations path = none →
      tblLookup ctx.pending_allocs path = none →
      (gpu_fuse_getattr ctx path t).1 = .fail (-ENOENT)) := by
  refine ⟨?_, ?_, ?_, ?_, ?_⟩
  · unfold gpu_fuse_getattr
    rw [if_pos rfl]
  · intro hm
    by_cases hr : path = "/"
    · subst hr
      unfold gpu_fuse_getattr
      rw [if_pos rfl]
    · unfold gpu_fuse_getattr
      rw [if_neg hr, if_pos hm]
  · intro hr hm hl
    simp only [gpu_fuse_getattr, if_neg hr, hm, Bool.false_eq_true, if_false,
      gpu_fuse_get_allocation, hl]
  · intro hr hm hl hp
    simp only [gpu_fuse_getattr, if_neg hr, hm, Bool.false_eq_true, if_false,
      gpu_fuse_get_allocation, hl, hp]
  · intro hr hm hl hp
    exact getattr_absent t hr hm hl hp

/-- Witness for C7's amended theorem: the root, a metadata path, the
materialized record of ctx_a2, the pending record of ctx_p0 and a
missing path. -/
theorem c7_getattr_shape_witness :
    ((gpu_fuse_getattr init_ctx "/" 0).1 = .stat ⟨true, 0o755, 2, 0, 0, 0, 0⟩) ∧
    ((gpu_fuse_getattr init_ctx "/x/.metadata" 0).1 = .stat ⟨true, 0o755, 2, 0, 0, 0, 0⟩) ∧
    ((gpu_fuse_getattr ctx_a2 "/a" 9).1 = .stat ⟨false, 0o644, 1, 4096, 9, 1, 1⟩) ∧
    ((gpu_fuse_getattr ctx_p0 "/b" 9).1 = .stat ⟨false, 0o644, 1, 0, 0, 0, 0⟩) ∧
    ((gpu_fuse_getattr init_ctx "/zzz" 0).1 = .fail (-ENOENT)) :=
  ⟨(c7_getattr_shape init_ctx "/" rec_a2 ⟨0, false, 0⟩ 0).1,
   (c7_getattr_shape init_ctx "/x/.metadata" rec_a2 ⟨0, false, 0⟩ 0).2.1 (by decide),
   (c7_getattr_shape ctx_a2 "/a" rec_a2 ⟨0, false, 0⟩ 9).2.2.1
     (by decide) (by decide) (by decide),
   (c7_getattr_shape ctx_p0 "/b" rec_a2 ⟨0, false, 0⟩ 9).2.2.2.1
     (by decide) (by decide) (by decide) (by decide),
   (c7_getattr_shape init_ctx "/zzz" rec_a2 ⟨0, false, 0⟩ 0).2.2.2.2
     (by decide) (by decide) rfl rfl⟩

/-- Claim C8 (confirmed): getxattr of user.gpu.size on a materialized
path: a zero-sized query returns the needed length without failing; a
positive buffer smaller than the decimal string fails with -ERANGE;
otherwise the decimal representation is copied and its length (without
the trailing NUL) is returned. -/
theorem c8_getxattr_size_protocol (ctx : gpu_fuse_context_t) (path : String)
    (a : gpu_allocation_t) (sz t : Nat)
    (hl : tblLookup ctx.allocations path = some a) :
    (sz = 0 →
      (gpu_fuse_getxattr ctx path XATTR_GPU_SIZE sz t).1 =
        (((Nat.repr a.size).length : Int), none)) ∧
    (sz ≠ 0 → sz < (Nat.repr a.size).length →
      (gpu_fuse_getxattr ctx path XATTR_GPU_SIZE sz t).1 = (-ERANGE, none)) ∧
    (sz ≠ 0 → ¬sz < (Nat.repr a.size).length →
      (gpu_fuse_getxattr ctx path XATTR_GPU_SIZE sz t).1 =
        (((Nat.repr a.size).length : Int), some (Nat.repr a.size))) := by
  refine ⟨?_, ?_, ?_⟩
  · intro h0
    subst h0
    simp only [gpu_fuse_getxattr, eq_self_iff_true, if_true,
      gpu_fuse_get_allocation, hl, if_pos rfl]
  · intro hne hlt
    simp only [gpu_fuse_getxattr, eq_self_iff_true, if_true,
      gpu_fuse_get_allocation, hl, if_neg hne, if_pos hlt]
  · intro hne hge
    simp only [gpu_fuse_getxattr, eq_self_iff_true, if_true,
      gpu_fuse_get_allocation, hl, if_neg hne, if_neg hge]

/-- Witness for C8 at ctx_a2 (size 4096, four decimal digits) with
buffer sizes 0, 3 and 4. -/
theorem c8_getxattr_size_protocol_witness :
    ((gpu_fuse_getxattr ctx_a2 "/a" XATTR_GPU_SIZE 0 9).1 = ((4 : Int), none)) ∧
    ((gpu_fuse_getxattr ctx_a2 "/a" XATTR_GPU_SIZE 3 9).1 = (-ERANGE, none)) ∧
    ((gpu_fuse_getxattr ctx_a2 "/a" XATTR_GPU_SIZE 4 9).1 = ((4 : Int), some "4096")) :=
  ⟨(c8_getxattr_size_protocol ctx_a2 "/a" rec_a2 0 9 (by decide)).1 rfl,
   (c8_getxattr_size_protocol ctx_a2 "/a" rec_a2 3 9 (by decide)).2.1
     (by decide) (by decide),
   (c8_getxattr_size_protocol ctx_a2 "/a" rec_a2 4 9 (by decide)).2.2
     (by decide) (by decide)⟩

/-- Claim C9 (counterexample): the malformed value "12abc" is accepted
by setxattr(user.gpu.size): strtoull parses the leading digits, the
call succeeds and records 12 as the pending size, refuting "fails with
invalid_argument whenever the supplied value is malformed". -/
theorem c9_counterexample :
    strtoull10 "12abc" = 12 ∧
    (gpu_fuse_setxattr init_ctx "/c" XATTR_GPU_SIZE "12abc" true 3 0).1 = 0 ∧
    tblLookup
      (gpu_fuse_setxattr init_ctx "/c" XATTR_GPU_SIZE "12abc" true 3 0).2.pending_allocs
      "/c" = some ⟨12, false, 0⟩ :=
  ⟨by decide, by decide, by decide⟩

/-- Claim C9 (amended): setxattr of user.gpu.size fails with
invalid_argument exactly when strtoull-style parsing of the value
(longest leading decimal-digit run after optional whitespace and sign,
modulo 2^64) yields zero, leaving the context unchanged; otherwise it
records the parsed value (> 0) as the path's pending size and
succeeds, not touching the allocations table. -/
theorem c9_setxattr_size_parse (ctx : gpu_fuse_context_t) (path value : String)
    (exportOk : Bool) (fd t : Nat) :
    (strtoull10 value = 0 →
      (gpu_fuse_setxattr ctx path XATTR_GPU_SIZE value exportOk fd t).1 = -EINVAL ∧
      (gpu_fuse_setxattr ctx path XATTR_GPU_SIZE value exportOk fd t).2 = ctx) ∧
    (strtoull10 value ≠ 0 →
      (gpu_fuse_setxattr ctx path XATTR_GPU_SIZE value exportOk fd t).1 = 0 ∧
      (tblLookup
          (gpu_fuse_setxattr ctx path XATTR_GPU_SIZE value exportOk fd t).2.pending_allocs
          path).map (fun p => p.size) = some (strtoull10 value) ∧
      (gpu_fuse_setxattr ctx path XATTR_GPU_SIZE value exportOk fd t).2.allocations =
        ctx.allocations) := by
  constructor
  · intro hz
    simp only [gpu_fuse_setxattr, eq_self_iff_true, if_true, if_pos hz]
    exact ⟨by trivial, by trivial⟩
  · intro hnz
    simp only [gpu_fuse_setxattr, eq_self_iff_true, if_true, if_neg hnz]
    cases hp : tblLookup ctx.pending_allocs path with
    | none =>
      refine ⟨by trivial, ?_, by trivial⟩
      rw [tblLookup_insert, if_pos rfl]
      rfl
    | some p =>
      refine ⟨by trivial, ?_, by trivial⟩
      rw [tblLookup_insert, if_pos rfl]
      rfl

/-- Witness for C9's amended theorem: value "0" is rejected without
effect; value "4096" records pending size 4096. -/
theorem c9_setxattr_size_parse_witness :
    ((gpu_fuse_setxattr init_ctx "/c" XATTR_GPU_SIZE "0" true 3 0).1 = -EINVAL ∧
     (gpu_fuse_setxattr init_ctx "/c" XATTR_GPU_SIZE "0" true 3 0).2 = init_ctx) ∧
    ((gpu_fuse_setxattr init_ctx "/c" XATTR_GPU_SIZE "4096" true 3 0).1 = 0 ∧
     (tblLookup
         (gpu_fuse_setxattr init_ctx "/c" XATTR_GPU_SIZE "4096" true 3 0).2.pending_allocs
         "/c").map (fun p => p.size) = some (strtoull10 "4096") ∧
     (gpu_fuse_setxattr init_ctx "/c" XATTR_GPU_SIZE "4096" true 3 0).2.allocations =
       init_ctx.allocations) :=
  ⟨(c9_setxattr_size_parse init_ctx "/c" "0" true 3 0).1 (by decide),
   (c9_setxattr_size_parse init_ctx "/c" "4096" true 3 0).2 (by decide)⟩

/-- Claim C10 (confirmed): write on a path with an existing allocation
returns the full requested byte count while transferring no data and
changing nothing but the record's last-access timestamp (other paths
and the pending table untouched); write on a path with no allocation
fails with not_found and changes nothing. -/
theorem c10_write_frame (ctx : gpu_fuse_context_t) (path : String)
    (a : gpu_allocation_t) (n t : Nat) :
    (tblLookup ctx.allocations path = some a →
      (gpu_fuse_write ctx path n t).1 = (n : Int) ∧
      tblLookup (gpu_fuse_write ctx path n t).2.allocations path =
        some { a with last_access := t } ∧
      (∀ q, q ≠ path →
        tblLookup (gpu_fuse_write ctx path n t).2.allocations q =
          tblLookup ctx.allocations q) ∧
      (gpu_fuse_write ctx path n t).2.pending_allocs = ctx.pending_allocs) ∧
    (tblLookup ctx.allocations path = none →
      (gpu_fuse_write ctx path n t).1 = -ENOENT ∧
      (gpu_fuse_write ctx path n t).2 = ctx) := by
  constructor
  · intro hl
    simp only [gpu_fuse_write, gpu_fuse_get_allocation, hl]
    refine ⟨by trivial, ?_, ?_, by trivial⟩
    · rw [tblLookup_insert, if_pos rfl]
    · intro q hq
      rw [tblLookup_insert, if_neg hq]
  · intro hl
    simp only [gpu_fuse_write, gpu_fuse_get_allocation, hl]
    exact ⟨by trivial, by trivial⟩

/-- Witness for C10 at ctx_a2 ("/a" present) and init_ctx (absent). -/
theorem c10_write_frame_witness :
    ((gpu_fuse_write ctx_a2 "/a" 100 9).1 = (100 : Int) ∧
     tblLookup (gpu_fuse_write ctx_a2 "/a" 100 9).2.allocations "/a" =
       some { rec_a2 with last_access := 9 } ∧
     (gpu_fuse_write ctx_a2 "/a" 100 9).2.pending_allocs = ctx_a2.pending_allocs) ∧
    ((gpu_fuse_write init_ctx "/a" 100 9).1 = -ENOENT ∧
     (gpu_fuse_write init_ctx "/a" 100 9).2 = init_ctx) :=
  ⟨⟨((c10_write_frame ctx_a2 "/a" rec_a2 100 9).1 (by decide)).1,
    ((c10_write_frame ctx_a2 "/a" rec_a2 100 9).1 (by decide)).2.1,
    ((c10_write_frame ctx_a2 "/a" rec_a2 100 9).1 (by decide)).2.2.2⟩,
   (c10_write_frame init_ctx "/a" rec_a2 100 9).2 rfl⟩

end GpuMemFuse
